import Mathlib

/-!
Shallow embedding of the timeseries-database-benchmarks repository:
the data model of `benchmark/db/base.py`, the five backend adapters
(`mssql_wide`, `mssql_narrow`, `timescaledb`, `questdb`, `influxdb`),
the benchmark wrappers, and the harness loop of `benchmark/run.py`.

Modelling conventions:
- timestamps are seconds since the Unix epoch (`Nat`); the line-protocol
  paths convert to nanoseconds exactly as the source does;
- machine floats carried opaquely by the source (sensor values, speeds) are
  modelled as `Option Int`: no claim depends on float arithmetic, only on
  which values are persisted where;
- connections are modelled by a `connected : Bool` flag (`self._conn is not
  None`) plus, for `connect`/`close` themselves, an `Option` handle;
- backend content is an explicit table state threaded through each call;
- driver failures are injected through an explicit failure oracle
  (`failAt : Option Nat` names the chunk whose write raises, `fail : Bool`
  makes the single write of a one-transaction path raise);
- each mutating call returns the new table state, the number of performed
  commit units (commits or HTTP posts), and an `Except` result mirroring
  raise/return.
-/

namespace Bench

/-- QueryResult of db/base.py: result metadata returned by every adapter
operation. -/
structure QueryResult where
  row_count : Nat
deriving Repr, DecidableEq

/-- InsertRow of db/base.py: one telemetry row handed to insert_batch. The
dataclass carries a timestamp and a tel_speed value; the wide MSSQL adapter
additionally reads a duck-typed `sensors` mapping from the row object, which
is modelled as an association list. -/
structure InsertRow where
  timestamp : Nat
  tel_speed : Option Int
  sensors : List (String × Int)
deriving Repr, DecidableEq

/-- InsertBatch of db/base.py. -/
structure InsertBatch where
  job_id : Nat
  vehicle_id : Nat
  start_ts : Nat
  end_ts : Nat
  rows : List InsertRow
  marker : String
deriving Repr, DecidableEq

/-- BATCH_SIZE of db/base.py. -/
def BATCH_SIZE : Nat := 500

/-- Failures surfaced by adapter operations. `RuntimeError("Database
connection is not established.")` is the precondition failure; any
driver/network/query failure is a backend error. -/
inductive DBError where
  | precondition
  | backend
deriving Repr, DecidableEq

/-- Python slicing loop `for i in range(0, len(xs), BATCH_SIZE):
xs[i:i+BATCH_SIZE]`, as the list of slices. -/
def chunksOf500 : List α → List (List α)
  | [] => []
  | x :: xs => ((x :: xs).take BATCH_SIZE) :: chunksOf500 ((x :: xs).drop BATCH_SIZE)
termination_by l => l.length
decreasing_by simp [BATCH_SIZE]; omega

/-- Loop body shared by the chunked write paths (mssql_wide per-chunk
commit, questdb and influxdb per-chunk HTTP post): each chunk is written and
made durable as its own unit of work; `failAt` injects a driver failure on
the write of the given chunk index, after which the failing chunk's rows are
not applied and the exception propagates. Returns the rows made durable by
the loop, the number of completed units, and the raised error if any. -/
def chunkCommitLoop (failAt : Option Nat) : Nat → List (List α) →
    List α × Nat × Option DBError
  | _, [] => ([], 0, none)
  | k, c :: cs =>
    if failAt = some k then
      ([], 0, some .backend)
    else
      let rest := chunkCommitLoop failAt (k + 1) cs
      (c ++ rest.1, rest.2.1 + 1, rest.2.2)

/-- SELECT ISNULL(MAX(id), 0) + 1 over a list of ids. -/
def nextId (ids : List Nat) : Nat := ids.foldr max 0 + 1

/-- Rendering of a Python value in an f-string: None prints as "None". -/
def pyShowOptInt : Option Int → String
  | none => "None"
  | some v => toString v

/-- Rows of the job table (id, vehicle_id) shared by the relational
backends. -/
structure JobRow where
  id : Nat
  vehicle_id : Nat
deriving Repr, DecidableEq

/-- Rows of the vehicle table as created by the benchmark adapters. -/
structure VehicleRow where
  id : Nat
  name : String
deriving Repr, DecidableEq

/-- Calendar-aligned 10-minute bucket of an epoch-second timestamp. All four
bucketing translations (DATEADD/DATEDIFF on minutes, time_bucket, SAMPLE BY
ALIGN TO CALENDAR, aggregateWindow) floor to the enclosing 10-minute
boundary. -/
def bucket10m (ts : Nat) : Nat := ts / 600 * 600

/-! ### MSSQL wide adapter (src/benchmark/db/mssql_wide.py) -/

/-- One row of dbo.dataset in the wide schema: one column per metric, the
marker in the note column. -/
structure WideDatasetRow where
  job_id : Nat
  timestamp : Nat
  type : Nat
  note : String
  telAltitude : Option Int
  telAngle : Option Int
  telExternalVoltage : Option Int
  telLatitude : Option Int
  telLongitude : Option Int
  telMovement : Option Int
  telPulseCounterDin1 : Option Int
  telPulseCounterDin2 : Option Int
  telSattelites : Option Int
  telSleepMode : Option Int
  telTotalOdometer : Option Int
  telSpeed : Option Int
deriving Repr, DecidableEq

/-- Tables touched by the wide adapter. -/
structure WideDB where
  dataset : List WideDatasetRow
  job : List JobRow
  vehicle : List VehicleRow
deriving Repr, DecidableEq

/-- Parameter tuple built per input row by MSSQLWideDatabase.insert_batch:
(job_id, timestamp, 0, marker, sensors.get(...) for each metric column). -/
def wideParamOfRow (job_id : Nat) (marker : String) (r : InsertRow) : WideDatasetRow :=
  { job_id := job_id
    timestamp := r.timestamp
    type := 0
    note := marker
    telAltitude := r.sensors.lookup "telAltitude"
    telAngle := r.sensors.lookup "telAngle"
    telExternalVoltage := r.sensors.lookup "telExternalVoltage"
    telLatitude := r.sensors.lookup "telLatitude"
    telLongitude := r.sensors.lookup "telLongitude"
    telMovement := r.sensors.lookup "telMovement"
    telPulseCounterDin1 := r.sensors.lookup "telPulseCounterDin1"
    telPulseCounterDin2 := r.sensors.lookup "telPulseCounterDin2"
    telSattelites := r.sensors.lookup "telSattelites"
    telSleepMode := r.sensors.lookup "telSleepMode"
    telTotalOdometer := r.sensors.lookup "telTotalOdometer"
    telSpeed := r.sensors.lookup "telSpeed" }

/-- MSSQLWideDatabase.insert_batch: connection check, empty-batch short
circuit, then the chunk loop `for i in range(0, len(params), BATCH_SIZE)`
with executemany + commit per chunk; on a failure the uncommitted chunk is
rolled back and the exception re-raised, leaving earlier committed chunks in
place. Returns the new tables, the commit count, and the result
(row_count = len(params) on success). -/
def mssqlWideInsertBatch (connected : Bool) (db : WideDB) (batch : InsertBatch)
    (failAt : Option Nat) : WideDB × Nat × Except DBError QueryResult :=
  if !connected then
    (db, 0, .error .precondition)
  else if batch.rows.isEmpty then
    (db, 0, .ok ⟨0⟩)
  else
    let params := batch.rows.map (wideParamOfRow batch.job_id batch.marker)
    let out := chunkCommitLoop failAt 0 (chunksOf500 params)
    match out.2.2 with
    | none => ({ db with dataset := db.dataset ++ out.1 }, out.2.1, .ok ⟨params.length⟩)
    | some e => ({ db with dataset := db.dataset ++ out.1 }, out.2.1, .error e)

/-- MSSQLWideDatabase.job_full: SELECT * FROM dataset WHERE job_id = ?
ORDER BY timestamp; the adapter fetches all rows and returns their count. -/
def mssqlWideJobFull (connected : Bool) (db : WideDB) (job_id : Nat) :
    Except DBError QueryResult :=
  if !connected then .error .precondition
  else .ok ⟨(db.dataset.filter (fun d => d.job_id == job_id)).length⟩

/-- MSSQLWideDatabase.last_n_by_vehicle: datasets joined to their job rows,
filtered by vehicle, FETCH NEXT n ROWS ONLY; the returned count is
min(n, matching rows). Job ids are assumed unique so the join does not
duplicate dataset rows. -/
def mssqlWideLastN (connected : Bool) (db : WideDB) (vehicle_id n : Nat) :
    Except DBError QueryResult :=
  if !connected then .error .precondition
  else
    .ok ⟨min n ((db.dataset.filter (fun d =>
      db.job.any (fun j => j.id == d.job_id && j.vehicle_id == vehicle_id))).length)⟩

/-- MSSQLWideDatabase.dashboard_speed_10m: rows of the vehicle in
[start_ts, end_ts) grouped by the 10-minute bucket expression; the count is
the number of non-empty buckets. -/
def mssqlWideDashboard10m (connected : Bool) (db : WideDB)
    (vehicle_id start_ts end_ts : Nat) : Except DBError QueryResult :=
  if !connected then .error .precondition
  else
    let matching := db.dataset.filter (fun d =>
      db.job.any (fun j => j.id == d.job_id && j.vehicle_id == vehicle_id)
        && decide (start_ts ≤ d.timestamp) && decide (d.timestamp < end_ts))
    .ok ⟨((matching.map (fun d => bucket10m d.timestamp)).dedup).length⟩

/-- MSSQLWideDatabase.dashboard_speed_10m_multi: grouped by bucket and
vehicle over the given vehicle list; the count is the number of distinct
(bucket, vehicle) pairs with at least one sample. -/
def mssqlWideDashboard10mMulti (connected : Bool) (db : WideDB)
    (vehicle_ids : List Nat) (start_ts end_ts : Nat) : Except DBError QueryResult :=
  if !connected then .error .precondition
  else
    let pairs := db.dataset.flatMap (fun d =>
      if decide (start_ts ≤ d.timestamp) && decide (d.timestamp < end_ts) then
        (db.job.filter (fun j => j.id == d.job_id && vehicle_ids.contains j.vehicle_id)).map
          (fun j => (bucket10m d.timestamp, j.vehicle_id))
      else [])
    .ok ⟨pairs.dedup.length⟩

/-- MSSQLWideDatabase.create_new_vehicle: INSERT INTO dbo.vehicle OUTPUT
INSERTED.id, commit, return the database-generated id (passed in as
fresh_id) with the uuid-based name. -/
def mssqlWideCreateNewVehicle (connected : Bool) (db : WideDB)
    (fresh_id : Nat) (vehicle_name : String) : WideDB × Except DBError Nat :=
  if !connected then (db, .error .precondition)
  else ({ db with vehicle := db.vehicle ++ [⟨fresh_id, vehicle_name⟩] }, .ok fresh_id)

/-- MSSQLWideDatabase.create_new_job: INSERT INTO dbo.job OUTPUT INSERTED.id,
commit, return the database-generated id (passed in as fresh_id). -/
def mssqlWideCreateNewJob (connected : Bool) (db : WideDB)
    (fresh_id vehicle_id : Nat) : WideDB × Except DBError Nat :=
  if !connected then (db, .error .precondition)
  else ({ db with job := db.job ++ [⟨fresh_id, vehicle_id⟩] }, .ok fresh_id)

/-- MSSQLWideDatabase.clean_data: five DELETE statements in order (dataset by
job_id, job by id, dataset joined to jobs of the vehicle, job by vehicle_id,
vehicle by id) followed by one commit. -/
def mssqlWideCleanData (connected : Bool) (db : WideDB) (vehicle_id job_id : Nat) :
    WideDB × Except DBError Unit :=
  if !connected then (db, .error .precondition)
  else
    -- DELETE FROM dbo.dataset WHERE job_id = ?
    let ds1 := db.dataset.filter (fun d => d.job_id != job_id)
    -- DELETE FROM dbo.job WHERE id = ?
    let jb1 := db.job.filter (fun j => j.id != job_id)
    -- DELETE d FROM dbo.dataset d JOIN dbo.job j ON j.id = d.job_id WHERE j.vehicle_id = ?
    let ds2 := ds1.filter (fun d =>
      !(jb1.any (fun j => j.id == d.job_id && j.vehicle_id == vehicle_id)))
    -- DELETE FROM dbo.job WHERE vehicle_id = ?
    let jb2 := jb1.filter (fun j => j.vehicle_id != vehicle_id)
    -- DELETE FROM dbo.vehicle WHERE id = ?
    let vh := db.vehicle.filter (fun v => v.id != vehicle_id)
    ({ dataset := ds2, job := jb2, vehicle := vh }, .ok ())

/-- Connect transition shared by the pyodbc/psycopg2 adapters: if self._conn
is not None the call returns immediately, otherwise a fresh handle is
stored. -/
def mssqlWideConnect (conn : Option Nat) (fresh : Nat) : Option Nat :=
  match conn with
  | some c => some c
  | none => some fresh

/-- Close transition shared by the pyodbc/psycopg2 adapters: if self._conn is
None the call returns immediately, otherwise the handle is closed and the
field reset to None (in a finally block). -/
def mssqlWideClose (conn : Option Nat) : Option Nat :=
  match conn with
  | none => none
  | some _ => none

/-! ### MSSQL narrow adapter (src/benchmark/db/mssql_narrow.py) -/

/-- One row of dbo.dataset in the narrow schema; the marker goes into the
note column. -/
structure NarrowDatasetRow where
  id : Nat
  job_id : Nat
  timestamp : Nat
  note : String
  type : Nat
deriving Repr, DecidableEq

/-- One row of dbo.sensor_record: the per-metric child row; insert_batch only
writes the speed sensor (sensor_id 45) with the stringified value. -/
structure SensorRecordRow where
  id : Nat
  value : Option String
  sensor_id : Nat
  dataset_id : Nat
deriving Repr, DecidableEq

/-- One row of dbo.job in the narrow schema (id, vehicle_id, the fixed
local_id and state dummies). -/
structure NarrowJobRow where
  id : Nat
  vehicle_id : Nat
  local_id : String
  state : String
deriving Repr, DecidableEq

/-- Tables touched by the narrow adapter. The non-null pricing dummy columns
of dbo.vehicle are never read back and are omitted. -/
structure NarrowDB where
  dataset : List NarrowDatasetRow
  sensor_record : List SensorRecordRow
  job : List NarrowJobRow
  vehicle : List VehicleRow
deriving Repr, DecidableEq

/-- MSSQLNarrowDatabase.insert_batch: connection check, empty-batch short
circuit, next ids via ISNULL(MAX(id),0)+1, one dataset row and one speed
sensor_record row per input row, then both multi-row inserts and a single
commit for the whole batch; any failure rolls the entire call back. -/
def mssqlNarrowInsertBatch (connected : Bool) (db : NarrowDB) (batch : InsertBatch)
    (fail : Bool) : NarrowDB × Nat × Except DBError QueryResult :=
  if !connected then (db, 0, .error .precondition)
  else if batch.rows.isEmpty then (db, 0, .ok ⟨0⟩)
  else
    let next_dataset_id := nextId (db.dataset.map (·.id))
    let next_sr_id := nextId (db.sensor_record.map (·.id))
    let dataset_params := batch.rows.enum.map (fun p =>
      ({ id := next_dataset_id + p.1, job_id := batch.job_id,
         timestamp := p.2.timestamp, note := batch.marker, type := 0 } : NarrowDatasetRow))
    let sr_params := batch.rows.enum.map (fun p =>
      ({ id := next_sr_id + p.1, value := p.2.tel_speed.map toString,
         sensor_id := 45, dataset_id := next_dataset_id + p.1 } : SensorRecordRow))
    if fail then (db, 0, .error .backend)
    else
      ({ db with dataset := db.dataset ++ dataset_params,
                 sensor_record := db.sensor_record ++ sr_params }, 1,
       .ok ⟨dataset_params.length⟩)

/-- MSSQLNarrowDatabase.job_full: datasets of the job joined to their
sensor_record children (the LEFT JOIN to dbo.sensor only adds the name
column and leaves the cardinality unchanged); returns the fetched row
count. -/
def mssqlNarrowJobFull (connected : Bool) (db : NarrowDB) (job_id : Nat) :
    Except DBError QueryResult :=
  if !connected then .error .precondition
  else
    .ok ⟨(db.dataset.flatMap (fun d =>
      if d.job_id == job_id then
        db.sensor_record.filter (fun sr => sr.dataset_id == d.id)
      else [])).length⟩

/-- Descending (timestamp, id) order used by the TOP(?) subquery of the
narrow last_n_by_vehicle. -/
def narrowLastOrd (d1 d2 : NarrowDatasetRow) : Bool :=
  decide (d2.timestamp < d1.timestamp) ||
    (d1.timestamp == d2.timestamp && decide (d2.id ≤ d1.id))

/-- MSSQLNarrowDatabase.last_n_by_vehicle: the TOP(n) datasets of the vehicle
ordered by timestamp desc, id desc, then joined to all their sensor_record
children; returns the fetched row count. -/
def mssqlNarrowLastN (connected : Bool) (db : NarrowDB) (vehicle_id n : Nat) :
    Except DBError QueryResult :=
  if !connected then .error .precondition
  else
    let cands := db.dataset.filter (fun d =>
      db.job.any (fun j => j.id == d.job_id && j.vehicle_id == vehicle_id))
    let last_ds := (cands.mergeSort narrowLastOrd).take n
    .ok ⟨(last_ds.flatMap (fun d =>
      db.sensor_record.filter (fun sr => sr.dataset_id == d.id))).length⟩

/-- MSSQLNarrowDatabase.dashboard_speed_10m: speed sensor records (sensor_id
45) of the vehicle in range, grouped by the 10-minute bucket expression;
count of non-empty buckets. -/
def mssqlNarrowDashboard10m (connected : Bool) (db : NarrowDB)
    (vehicle_id start_ts end_ts : Nat) : Except DBError QueryResult :=
  if !connected then .error .precondition
  else
    let buckets := db.dataset.flatMap (fun d =>
      if db.job.any (fun j => j.id == d.job_id && j.vehicle_id == vehicle_id)
          && decide (start_ts ≤ d.timestamp) && decide (d.timestamp < end_ts) then
        (db.sensor_record.filter (fun sr =>
          sr.dataset_id == d.id && sr.sensor_id == 45)).map
          (fun _ => bucket10m d.timestamp)
      else [])
    .ok ⟨buckets.dedup.length⟩

/-- MSSQLNarrowDatabase.dashboard_speed_10m_multi: as dashboard_speed_10m but
grouped by bucket and vehicle over the given vehicle list. -/
def mssqlNarrowDashboard10mMulti (connected : Bool) (db : NarrowDB)
    (vehicle_ids : List Nat) (start_ts end_ts : Nat) : Except DBError QueryResult :=
  if !connected then .error .precondition
  else
    let pairs := db.dataset.flatMap (fun d =>
      if decide (start_ts ≤ d.timestamp) && decide (d.timestamp < end_ts) then
        (db.job.filter (fun j => j.id == d.job_id && vehicle_ids.contains j.vehicle_id)).flatMap
          (fun j => (db.sensor_record.filter (fun sr =>
            sr.dataset_id == d.id && sr.sensor_id == 45)).map
            (fun _ => (bucket10m d.timestamp, j.vehicle_id)))
      else [])
    .ok ⟨pairs.dedup.length⟩

/-- MSSQLNarrowDatabase.create_new_vehicle: next id via ISNULL(MAX(id),0)+1,
insert the dummy vehicle row, commit, return the id. -/
def mssqlNarrowCreateNewVehicle (connected : Bool) (db : NarrowDB) :
    NarrowDB × Except DBError Nat :=
  if !connected then (db, .error .precondition)
  else
    let vehicle_id := nextId (db.vehicle.map (·.id))
    ({ db with vehicle :=
        db.vehicle ++ [⟨vehicle_id, "benchmark_vehicle_" ++ toString vehicle_id⟩] },
     .ok vehicle_id)

/-- MSSQLNarrowDatabase.create_new_job: next id via ISNULL(MAX(id),0)+1,
insert the job row with local_id and state fixed to '1', commit, return the
id. -/
def mssqlNarrowCreateNewJob (connected : Bool) (db : NarrowDB) (vehicle_id : Nat) :
    NarrowDB × Except DBError Nat :=
  if !connected then (db, .error .precondition)
  else
    let job_id := nextId (db.job.map (·.id))
    ({ db with job := db.job ++ [⟨job_id, vehicle_id, "1", "1"⟩] }, .ok job_id)

/-- MSSQLNarrowDatabase.clean_data: delete sensor_record rows of the
vehicle's datasets, then those datasets, then the job row by id, then the
vehicle row by id, then one commit. The first two deletes use the join state
before any deletion. -/
def mssqlNarrowCleanData (connected : Bool) (db : NarrowDB) (vehicle_id job_id : Nat) :
    NarrowDB × Except DBError Unit :=
  if !connected then (db, .error .precondition)
  else
    let sr1 := db.sensor_record.filter (fun sr =>
      !(db.dataset.any (fun d => d.id == sr.dataset_id &&
        db.job.any (fun j => j.id == d.job_id && j.vehicle_id == vehicle_id))))
    let ds1 := db.dataset.filter (fun d =>
      !(db.job.any (fun j => j.id == d.job_id && j.vehicle_id == vehicle_id)))
    let jb1 := db.job.filter (fun j => j.id != job_id)
    let vh1 := db.vehicle.filter (fun v => v.id != vehicle_id)
    ({ dataset := ds1, sensor_record := sr1, job := jb1, vehicle := vh1 }, .ok ())

/-- Connect transition of MSSQLNarrowDatabase (same handle pattern as the
wide adapter). -/
def mssqlNarrowConnect (conn : Option Nat) (fresh : Nat) : Option Nat :=
  match conn with
  | some c => some c
  | none => some fresh

/-- Close transition of MSSQLNarrowDatabase. -/
def mssqlNarrowClose (conn : Option Nat) : Option Nat :=
  match conn with
  | none => none
  | some _ => none

/-! ### TimescaleDB adapter (src/benchmark/db/timescaledb.py) -/

/-- One row of public.dataset in the Timescale schema; the marker goes into
the string column. -/
structure TsDatasetRow where
  timestamp : Nat
  vehicle_id : Nat
  job_id : Nat
  telspeed : Option Int
  string : String
deriving Repr, DecidableEq

/-- Tables touched by the Timescale adapter. -/
structure TsDB where
  dataset : List TsDatasetRow
  job : List JobRow
  vehicle : List VehicleRow
deriving Repr, DecidableEq

/-- TimescaleDatabase.insert_batch: connection check, empty-batch short
circuit, one value tuple per row, then a single execute_values call (the
page_size=1000 transport paging stays inside one transaction) followed by
one commit; any failure rolls the entire call back. -/
def timescaleInsertBatch (connected : Bool) (db : TsDB) (batch : InsertBatch)
    (fail : Bool) : TsDB × Nat × Except DBError QueryResult :=
  if !connected then (db, 0, .error .precondition)
  else if batch.rows.isEmpty then (db, 0, .ok ⟨0⟩)
  else
    let values := batch.rows.map (fun r =>
      ({ timestamp := r.timestamp, vehicle_id := batch.vehicle_id,
         job_id := batch.job_id, telspeed := r.tel_speed,
         string := batch.marker } : TsDatasetRow))
    if fail then (db, 0, .error .backend)
    else ({ db with dataset := db.dataset ++ values }, 1, .ok ⟨values.length⟩)

/-- TimescaleDatabase.job_full: SELECT * FROM dataset WHERE job_id = %s. -/
def timescaleJobFull (connected : Bool) (db : TsDB) (job_id : Nat) :
    Except DBError QueryResult :=
  if !connected then .error .precondition
  else .ok ⟨(db.dataset.filter (fun d => d.job_id == job_id)).length⟩

/-- TimescaleDatabase.last_n_by_vehicle: datasets of the vehicle, LIMIT n. -/
def timescaleLastN (connected : Bool) (db : TsDB) (vehicle_id n : Nat) :
    Except DBError QueryResult :=
  if !connected then .error .precondition
  else
    .ok ⟨min n ((db.dataset.filter (fun d => d.vehicle_id == vehicle_id)).length)⟩

/-- TimescaleDatabase.dashboard_speed_10m: time_bucket '10 minutes' grouping
over the vehicle's rows in range; count of non-empty buckets. -/
def timescaleDashboard10m (connected : Bool) (db : TsDB)
    (vehicle_id start_ts end_ts : Nat) : Except DBError QueryResult :=
  if !connected then .error .precondition
  else
    let matching := db.dataset.filter (fun d =>
      d.vehicle_id == vehicle_id
        && decide (start_ts ≤ d.timestamp) && decide (d.timestamp < end_ts))
    .ok ⟨((matching.map (fun d => bucket10m d.timestamp)).dedup).length⟩

/-- TimescaleDatabase.dashboard_speed_10m_multi: grouped by bucket and
vehicle over vehicle_id = ANY(%s). -/
def timescaleDashboard10mMulti (connected : Bool) (db : TsDB)
    (vehicle_ids : List Nat) (start_ts end_ts : Nat) : Except DBError QueryResult :=
  if !connected then .error .precondition
  else
    let matching := db.dataset.filter (fun d =>
      vehicle_ids.contains d.vehicle_id
        && decide (start_ts ≤ d.timestamp) && decide (d.timestamp < end_ts))
    .ok ⟨((matching.map (fun d => (bucket10m d.timestamp, d.vehicle_id))).dedup).length⟩

/-- TimescaleDatabase.create_new_vehicle: INSERT INTO vehicle RETURNING id;
the database-generated id is passed in as fresh_id. -/
def timescaleCreateNewVehicle (connected : Bool) (db : TsDB)
    (fresh_id : Nat) (vehicle_name : String) : TsDB × Except DBError Nat :=
  if !connected then (db, .error .precondition)
  else ({ db with vehicle := db.vehicle ++ [⟨fresh_id, vehicle_name⟩] }, .ok fresh_id)

/-- TimescaleDatabase.create_new_job: INSERT INTO job RETURNING id. -/
def timescaleCreateNewJob (connected : Bool) (db : TsDB)
    (fresh_id vehicle_id : Nat) : TsDB × Except DBError Nat :=
  if !connected then (db, .error .precondition)
  else ({ db with job := db.job ++ [⟨fresh_id, vehicle_id⟩] }, .ok fresh_id)

/-- TimescaleDatabase.clean_data: delete dataset rows by job_id, the job row
by id, the vehicle row by id, then one commit (rollback on failure). -/
def timescaleCleanData (connected : Bool) (db : TsDB) (vehicle_id job_id : Nat) :
    TsDB × Except DBError Unit :=
  if !connected then (db, .error .precondition)
  else
    ({ dataset := db.dataset.filter (fun d => d.job_id != job_id),
       job := db.job.filter (fun j => j.id != job_id),
       vehicle := db.vehicle.filter (fun v => v.id != vehicle_id) }, .ok ())

/-- Connect transition of TimescaleDatabase (psycopg2, same handle pattern
as the MSSQL adapters). -/
def timescaleConnect (conn : Option Nat) (fresh : Nat) : Option Nat :=
  match conn with
  | some c => some c
  | none => some fresh

/-- Close transition of TimescaleDatabase. -/
def timescaleClose (conn : Option Nat) : Option Nat :=
  match conn with
  | none => none
  | some _ => none

/-! ### QuestDB adapter (src/benchmark/db/questdb.py)

QuestDB vehicle and job identifiers are uuid4 hex strings in the source;
they are modelled by the same opaque id type the batch carries, which no
claim distinguishes. -/

/-- One ingested row of the dataset table: exactly the fields encoded into
the ILP line (table, job_id tag, telSpeed field, timestamp). Neither the
vehicle id nor the batch marker appears in the line. -/
structure QuestDatasetRow where
  job_id : Nat
  telSpeed : Option Int
  timestamp_ns : Nat
deriving Repr, DecidableEq

/-- Tables visible to the QuestDB adapter. -/
structure QuestDB where
  dataset : List QuestDatasetRow
  job : List JobRow
  vehicle : List VehicleRow
deriving Repr, DecidableEq

/-- Text payload lines built by QuestDBDatabase.ilp_insert_batch, one per
row: f"{table},job_id={batch.job_id} telSpeed={r.tel_speed} {ts_ns}". -/
def questIlpLines (table : String) (batch : InsertBatch) : List String :=
  batch.rows.map (fun r =>
    table ++ ",job_id=" ++ toString batch.job_id ++ " telSpeed=" ++
      pyShowOptInt r.tel_speed ++ " " ++ toString (r.timestamp * 1000000000))

/-- QuestDBDatabase.insert_batch delegates to ilp_insert_batch and then
returns len(batch.rows). ilp_insert_batch builds one line per row and posts
the lines in chunks of BATCH_SIZE, each HTTP post being its own durable unit
of work; a failed post raises after earlier posts already took effect.
Neither method consults self._conn, so the connected flag is not read on
this path. -/
def questdbInsertBatch (connected : Bool) (db : QuestDB) (batch : InsertBatch)
    (failAt : Option Nat) : QuestDB × Nat × Except DBError QueryResult :=
  let rows := batch.rows.map (fun r =>
    ({ job_id := batch.job_id, telSpeed := r.tel_speed,
       timestamp_ns := r.timestamp * 1000000000 } : QuestDatasetRow))
  let out := chunkCommitLoop failAt 0 (chunksOf500 rows)
  match out.2.2 with
  | none => ({ db with dataset := db.dataset ++ out.1 }, out.2.1, .ok ⟨batch.rows.length⟩)
  | some e => ({ db with dataset := db.dataset ++ out.1 }, out.2.1, .error e)

/-- QuestDBDatabase.job_full: SELECT * FROM dataset WHERE job_id = %s. -/
def questdbJobFull (connected : Bool) (db : QuestDB) (job_id : Nat) :
    Except DBError QueryResult :=
  if !connected then .error .precondition
  else .ok ⟨(db.dataset.filter (fun d => d.job_id == job_id)).length⟩

/-- QuestDBDatabase.last_n_by_vehicle: datasets joined to jobs of the
vehicle, LIMIT n. -/
def questdbLastN (connected : Bool) (db : QuestDB) (vehicle_id n : Nat) :
    Except DBError QueryResult :=
  if !connected then .error .precondition
  else
    .ok ⟨min n ((db.dataset.filter (fun d =>
      db.job.any (fun j => j.id == d.job_id && j.vehicle_id == vehicle_id))).length)⟩

/-- QuestDBDatabase.dashboard_speed_10m: SAMPLE BY 10m ALIGN TO CALENDAR over
the vehicle's rows in range; count of non-empty buckets. -/
def questdbDashboard10m (connected : Bool) (db : QuestDB)
    (vehicle_id start_ts end_ts : Nat) : Except DBError QueryResult :=
  if !connected then .error .precondition
  else
    let matching := db.dataset.filter (fun d =>
      db.job.any (fun j => j.id == d.job_id && j.vehicle_id == vehicle_id)
        && decide (start_ts * 1000000000 ≤ d.timestamp_ns)
        && decide (d.timestamp_ns < end_ts * 1000000000))
    .ok ⟨((matching.map (fun d => bucket10m (d.timestamp_ns / 1000000000))).dedup).length⟩

/-- QuestDBDatabase.dashboard_speed_10m_multi: timestamp_floor('10m')
grouping by bucket and vehicle. -/
def questdbDashboard10mMulti (connected : Bool) (db : QuestDB)
    (vehicle_ids : List Nat) (start_ts end_ts : Nat) : Except DBError QueryResult :=
  if !connected then .error .precondition
  else
    let pairs := db.dataset.flatMap (fun d =>
      if decide (start_ts * 1000000000 ≤ d.timestamp_ns)
          && decide (d.timestamp_ns < end_ts * 1000000000) then
        (db.job.filter (fun j => j.id == d.job_id && vehicle_ids.contains j.vehicle_id)).map
          (fun j => (bucket10m (d.timestamp_ns / 1000000000), j.vehicle_id))
      else [])
    .ok ⟨pairs.dedup.length⟩

/-- QuestDBDatabase.create_new_vehicle: connection check, insert the vehicle
row with a fresh uuid id, commit, return the id. -/
def questdbCreateNewVehicle (connected : Bool) (db : QuestDB) (new_id : Nat) :
    QuestDB × Except DBError Nat :=
  if !connected then (db, .error .precondition)
  else
    ({ db with vehicle := db.vehicle ++ [⟨new_id, "bench_vehicle_" ++ toString new_id⟩] },
     .ok new_id)

/-- QuestDBDatabase.create_new_job: connection check, insert the job row with
a fresh uuid id, commit, return the id. -/
def questdbCreateNewJob (connected : Bool) (db : QuestDB) (vehicle_id new_id : Nat) :
    QuestDB × Except DBError Nat :=
  if !connected then (db, .error .precondition)
  else ({ db with job := db.job ++ [⟨new_id, vehicle_id⟩] }, .ok new_id)

/-- QuestDBDatabase.clean_data starts with a bare return statement: the
connection check and the copy-drop-rename workaround below it are dead code,
so the call is a no-op for every argument and every connection state. -/
def questdbCleanData (connected : Bool) (db : QuestDB) (vehicle_id job_id : Nat) :
    QuestDB × Except DBError Unit :=
  (db, .ok ())

/-- Connect transition of QuestDBDatabase (psycopg2 handle pattern). -/
def questdbConnect (conn : Option Nat) (fresh : Nat) : Option Nat :=
  match conn with
  | some c => some c
  | none => some fresh

/-- Close transition of QuestDBDatabase. -/
def questdbClose (conn : Option Nat) : Option Nat :=
  match conn with
  | none => none
  | some _ => none

/-! ### InfluxDB adapter (src/benchmark/db/influxdb.py) -/

/-- One ingested point: exactly the fields encoded into the line protocol
payload (measurement, job_id and vehicle_id tags, telSpeed field,
timestamp). The batch marker appears nowhere in the line. -/
structure InfluxPoint where
  measurement : String
  job_id : Nat
  vehicle_id : Nat
  telSpeed : Option Int
  timestamp_ns : Nat
deriving Repr, DecidableEq

/-- Bucket content of the Influx adapter. -/
abbrev InfluxDB := List InfluxPoint

/-- Connection state of InfluxDBDatabase: client, query_api and write_api
handles, set together by connect and cleared together by close. -/
structure InfluxConn where
  client : Option Nat
  query_api : Option Nat
  write_api : Option Nat
deriving Repr, DecidableEq

/-- InfluxDBDatabase.connect: if self._client is not None return immediately,
otherwise build the client and derive the query and write apis. -/
def influxConnect (c : InfluxConn) (fresh : Nat) : InfluxConn :=
  match c.client with
  | some _ => c
  | none => { client := some fresh, query_api := some fresh, write_api := some fresh }

/-- InfluxDBDatabase.close: if self._client is None return immediately,
otherwise close the client and (in a finally block) clear all three
fields. -/
def influxClose (c : InfluxConn) : InfluxConn :=
  match c.client with
  | none => c
  | some _ => { client := none, query_api := none, write_api := none }

/-- Text payload lines built by InfluxDBDatabase.insert_batch, one per row:
measurement, job_id and vehicle_id tags, the telSpeed field and the
nanosecond timestamp. -/
def influxLines (measurement : String) (batch : InsertBatch) : List String :=
  batch.rows.map (fun r =>
    measurement ++ ",job_id=" ++ toString batch.job_id ++ ",vehicle_id=" ++
      toString batch.vehicle_id ++ " telSpeed=" ++ pyShowOptInt r.tel_speed ++
      " " ++ toString (r.timestamp * 1000000000))

/-- InfluxDBDatabase.insert_batch: _require_write_api precondition check,
empty-batch short circuit, then one synchronous write per BATCH_SIZE chunk
of lines; each write is its own durable unit, a failed write raises after
earlier writes already took effect. Returns len(batch.rows) on success. -/
def influxInsertBatch (connected : Bool) (measurement : String) (db : InfluxDB)
    (batch : InsertBatch) (failAt : Option Nat) :
    InfluxDB × Nat × Except DBError QueryResult :=
  if !connected then (db, 0, .error .precondition)
  else if batch.rows.isEmpty then (db, 0, .ok ⟨0⟩)
  else
    let points := batch.rows.map (fun r =>
      ({ measurement := measurement, job_id := batch.job_id,
         vehicle_id := batch.vehicle_id, telSpeed := r.tel_speed,
         timestamp_ns := r.timestamp * 1000000000 } : InfluxPoint))
    let out := chunkCommitLoop failAt 0 (chunksOf500 points)
    match out.2.2 with
    | none => (db ++ out.1, out.2.1, .ok ⟨batch.rows.length⟩)
    | some e => (db ++ out.1, out.2.1, .error e)

/-- InfluxDBDatabase.job_full: flux query filtering the measurement, the
telSpeed field and the job_id tag; _count_records sums the record counts. -/
def influxJobFull (connected : Bool) (measurement : String) (db : InfluxDB)
    (job_id : Nat) : Except DBError QueryResult :=
  if !connected then .error .precondition
  else
    .ok ⟨(db.filter (fun p => p.measurement == measurement && p.job_id == job_id)).length⟩

/-- InfluxDBDatabase.last_n_by_vehicle: flux top(n) over the vehicle's
telSpeed points, so min(n, available) records. -/
def influxLastN (connected : Bool) (measurement : String) (db : InfluxDB)
    (vehicle_id n : Nat) : Except DBError QueryResult :=
  if !connected then .error .precondition
  else
    .ok ⟨min n ((db.filter (fun p =>
      p.measurement == measurement && p.vehicle_id == vehicle_id)).length)⟩

/-- InfluxDBDatabase.dashboard_speed_10m: aggregateWindow(every: 10m,
createEmpty: false) over the vehicle's points in [start, stop); count of
non-empty windows. -/
def influxDashboard10m (connected : Bool) (measurement : String) (db : InfluxDB)
    (vehicle_id start_ts end_ts : Nat) : Except DBError QueryResult :=
  if !connected then .error .precondition
  else
    let matching := db.filter (fun p =>
      p.measurement == measurement && p.vehicle_id == vehicle_id
        && decide (start_ts * 1000000000 ≤ p.timestamp_ns)
        && decide (p.timestamp_ns < end_ts * 1000000000))
    .ok ⟨((matching.map (fun p => bucket10m (p.timestamp_ns / 1000000000))).dedup).length⟩

/-- InfluxDBDatabase.dashboard_speed_10m_multi: as dashboard_speed_10m with
an or-joined vehicle filter, windows grouped per vehicle series. -/
def influxDashboard10mMulti (connected : Bool) (measurement : String)
    (db : InfluxDB) (vehicle_ids : List Nat) (start_ts end_ts : Nat) :
    Except DBError QueryResult :=
  if !connected then .error .precondition
  else
    let matching := db.filter (fun p =>
      p.measurement == measurement && vehicle_ids.contains p.vehicle_id
        && decide (start_ts * 1000000000 ≤ p.timestamp_ns)
        && decide (p.timestamp_ns < end_ts * 1000000000))
    .ok ⟨((matching.map (fun p =>
      (bucket10m (p.timestamp_ns / 1000000000), p.vehicle_id))).dedup).length⟩

/-- InfluxDBDatabase.create_new_vehicle: return uuid4().hex - no connection
check and no backend work. -/
def influxCreateNewVehicle (connected : Bool) (fresh : Nat) : Except DBError Nat :=
  .ok fresh

/-- InfluxDBDatabase.create_new_job: return uuid4().hex - no connection check
and no backend work. -/
def influxCreateNewJob (connected : Bool) (vehicle_id : Nat) (fresh : Nat) :
    Except DBError Nat :=
  .ok fresh

/-- InfluxDBDatabase.clean_data: client precondition check, then a predicate
delete over the full time range with job_id="{job_id}" AND
vehicle_id="{vehicle_id}". -/
def influxCleanData (connected : Bool) (db : InfluxDB) (vehicle_id job_id : Nat) :
    InfluxDB × Except DBError Unit :=
  if !connected then (db, .error .precondition)
  else (db.filter (fun p => !(p.job_id == job_id && p.vehicle_id == vehicle_id)), .ok ())

/-! ### Benchmark wrappers (src/benchmark/benchmarks/) and harness
(src/benchmark/run.py)

A wrapper takes a connected adapter and performs exactly one adapter call
between two perf_counter_ns readings. The adapter call is modelled as a
state transformer `db_call : σ → σ × Except DBError QueryResult` applied
exactly once; the two timer readings t0 and t1 are inputs. A raised
exception propagates out of the wrapper. -/

/-- Primitive serializable values placed into the params map of a
BenchmarkRun (ints, strings such as ISO timestamps, lists of ints). -/
inductive ParamValue where
  | int (n : Int)
  | str (s : String)
  | intList (l : List Int)
deriving Repr, DecidableEq

/-- BenchmarkRun dataclass (defined identically in each benchmarks module):
one immutable record per timed call. latency_ms is (t1 - t0) / 1_000_000. -/
structure BenchmarkRun where
  benchmark : String
  db : String
  params : List (String × ParamValue)
  latency_ms : ℚ
  row_count : Nat
deriving Repr, DecidableEq

/-- datetime.isoformat of an epoch timestamp, modelled as an injective
rendering of the instant. -/
def isoformat (ts : Nat) : String := toString ts

/-- run_job_full (benchmarks/job_full.py): time db.job_full(job_id) and wrap
the reported row count. -/
def run_job_full (db_call : σ → σ × Except DBError QueryResult) (db_name : String)
    (job_id : Nat) (s : σ) (t0 t1 : Nat) : σ × Except DBError BenchmarkRun :=
  let out := db_call s
  match out.2 with
  | .error e => (out.1, .error e)
  | .ok res =>
    (out.1, .ok { benchmark := "job_full", db := db_name,
                  params := [("job_id", .int job_id)],
                  latency_ms := ((t1 - t0 : Nat) : ℚ) / 1000000,
                  row_count := res.row_count })

/-- run_last_n_by_vehicle (benchmarks/last_n_by_vehicle.py): time
db.last_n_by_vehicle(vehicle_id, n). The benchmark field of the returned
record is the string "job_full" in the source. -/
def run_last_n_by_vehicle (db_call : σ → σ × Except DBError QueryResult)
    (db_name : String) (vehicle_id n : Nat) (s : σ) (t0 t1 : Nat) :
    σ × Except DBError BenchmarkRun :=
  let out := db_call s
  match out.2 with
  | .error e => (out.1, .error e)
  | .ok res =>
    (out.1, .ok { benchmark := "job_full", db := db_name,
                  params := [("vehicle_id", .int vehicle_id), ("n", .int n)],
                  latency_ms := ((t1 - t0 : Nat) : ℚ) / 1000000,
                  row_count := res.row_count })

/-- run_dashboard_speed_10m (benchmarks/dashboard_speed_10m.py): time
db.dashboard_speed_10m(vehicle_id, start_ts, end_ts); timestamps are copied
into params as ISO strings. -/
def run_dashboard_speed_10m (db_call : σ → σ × Except DBError QueryResult)
    (db_name : String) (vehicle_id start_ts end_ts : Nat) (s : σ) (t0 t1 : Nat) :
    σ × Except DBError BenchmarkRun :=
  let out := db_call s
  match out.2 with
  | .error e => (out.1, .error e)
  | .ok res =>
    (out.1, .ok { benchmark := "dashboard_speed_10m", db := db_name,
                  params := [("vehicle_id", .int vehicle_id),
                             ("start_ts", .str (isoformat start_ts)),
                             ("end_ts", .str (isoformat end_ts)),
                             ("bucket", .str "10m"),
                             ("metric", .str "avg(telSpeed)")],
                  latency_ms := ((t1 - t0 : Nat) : ℚ) / 1000000,
                  row_count := res.row_count })

/-- Observable outcome of one harness invocation after connect() succeeded:
the rows appended to the results csv (append_result writes run_idx and the
BenchmarkRun fields), whether close() ran, and the error that aborted the
invocation, if any. -/
structure HarnessOutcome where
  sink : List (Nat × BenchmarkRun)
  closed : Bool
  error : Option DBError
deriving Repr, DecidableEq

/-- Warmup loop of main (run.py): `for _ in range(max(0, args.warmup))` runs
the selected benchmark and discards the result; the first raised error
aborts. iters gives the outcome of each successive benchmark execution,
indexed from i. -/
def warmupLoop (iters : Nat → Except DBError BenchmarkRun) :
    Nat → Nat → Option DBError
  | _, 0 => none
  | i, Nat.succ k =>
    match iters i with
    | .error e => some e
    | .ok _ => warmupLoop iters (i + 1) k

/-- Measured loop of main (run.py): `for i in range(args.runs)` runs the
benchmark and appends (i + 1, r) to the results file; the first raised error
aborts the remaining iterations with nothing appended for the failed one.
base is the number of already-executed warmup iterations, i the 0-based
measured index. -/
def measuredLoop (iters : Nat → Except DBError BenchmarkRun) (base : Nat) :
    Nat → Nat → List (Nat × BenchmarkRun) × Option DBError
  | _, 0 => ([], none)
  | i, Nat.succ k =>
    match iters (base + i) with
    | .error e => ([], some e)
    | .ok r =>
      let rest := measuredLoop iters base (i + 1) k
      ((i + 1, r) :: rest.1, rest.2)

/-- Post-connect body of main (run.py): the warmup loop then the measured
loop inside try, with db.close() in the finally block, so close runs on
every path. warmup and runs are the argparse ints; a negative warmup is
clamped by max(0, .), a negative runs makes range(args.runs) empty. -/
def harnessMain (warmup runs : Int) (iters : Nat → Except DBError BenchmarkRun) :
    HarnessOutcome :=
  let w := warmup.toNat
  match warmupLoop iters 0 w with
  | some e => { sink := [], closed := true, error := some e }
  | none =>
    let out := measuredLoop iters w 0 runs.toNat
    { sink := out.1, closed := true, error := out.2 }

/-! ### Basic lemmas about the chunk loop -/

theorem chunkCommitLoop_none (k : Nat) (cs : List (List α)) :
    chunkCommitLoop none k cs = (cs.flatten, (cs.length, none)) := by
  induction cs generalizing k with
  | nil => simp [chunkCommitLoop]
  | cons c cs ih => simp [chunkCommitLoop, ih]

theorem chunkCommitLoop_fail (cs : List (List α)) (k j : Nat) (hj : j < cs.length) :
    chunkCommitLoop (some (k + j)) k cs =
      ((cs.take j).flatten, (j, some .backend)) := by
  induction cs generalizing k j with
  | nil => simp at hj
  | cons c cs ih =>
    cases j with
    | zero => simp [chunkCommitLoop]
    | succ j =>
      have h2 : ¬ ((some (k + (j + 1)) : Option Nat) = some k) := by
        simp only [Option.some.injEq]
        omega
      have h1 : k + (j + 1) = (k + 1) + j := by omega
      rw [chunkCommitLoop, if_neg h2, h1,
        ih (k + 1) j (by simpa using Nat.lt_of_succ_lt_succ hj)]
      simp

theorem chunksOf500_flatten (l : List α) : (chunksOf500 l).flatten = l := by
  induction l using chunksOf500.induct with
  | case1 => simp [chunksOf500]
  | case2 x xs ih => rw [chunksOf500]; simp [ih]

theorem chunksOf500_length (l : List α) :
    (chunksOf500 l).length = (l.length + 499) / 500 := by
  induction l using chunksOf500.induct with
  | case1 => simp [chunksOf500]
  | case2 x xs ih =>
    rw [chunksOf500]
    simp only [List.length_cons, List.length_drop, BATCH_SIZE] at ih ⊢
    omega

/-! ### C5 - row_count of a successful insert_batch -/

/-- C5: for every backend adapter and every batch of N rows with N divisible
by the chunk size (500), insert_batch without an injected backend failure
returns row_count = N. -/
theorem insert_row_count (batch : InsertBatch) (N : Nat)
    (hN : batch.rows.length = N) (hdvd : BATCH_SIZE ∣ N)
    (wdb : WideDB) (ndb : NarrowDB) (tdb : TsDB) (qdb : QuestDB)
    (idb : InfluxDB) (m : String) :
    (mssqlWideInsertBatch true wdb batch none).2.2 = .ok ⟨N⟩ ∧
    (mssqlNarrowInsertBatch true ndb batch false).2.2 = .ok ⟨N⟩ ∧
    (timescaleInsertBatch true tdb batch false).2.2 = .ok ⟨N⟩ ∧
    (questdbInsertBatch true qdb batch none).2.2 = .ok ⟨N⟩ ∧
    (influxInsertBatch true m idb batch none).2.2 = .ok ⟨N⟩ := by
  subst hN
  refine ⟨?_, ?_, ?_, ?_, ?_⟩
  · by_cases h : batch.rows.isEmpty
    · rw [List.isEmpty_iff] at h
      simp [mssqlWideInsertBatch, h]
    · simp [mssqlWideInsertBatch, h, chunkCommitLoop_none]
  · by_cases h : batch.rows.isEmpty
    · rw [List.isEmpty_iff] at h
      simp [mssqlNarrowInsertBatch, h]
    · simp [mssqlNarrowInsertBatch, h]
  · by_cases h : batch.rows.isEmpty
    · rw [List.isEmpty_iff] at h
      simp [timescaleInsertBatch, h]
    · simp [timescaleInsertBatch, h]
  · simp [questdbInsertBatch, chunkCommitLoop_none]
  · by_cases h : batch.rows.isEmpty
    · rw [List.isEmpty_iff] at h
      simp [influxInsertBatch, h]
    · simp [influxInsertBatch, h, chunkCommitLoop_none]

/-- C5 witness: a 500-row batch yields row_count = 500 on every backend. -/
theorem insert_row_count_witness :
    (mssqlWideInsertBatch true ⟨[], [], []⟩
      ⟨7, 3, 0, 499, List.replicate 500 ⟨0, some 12, []⟩, "m1"⟩ none).2.2 = .ok ⟨500⟩ ∧
    (mssqlNarrowInsertBatch true ⟨[], [], [], []⟩
      ⟨7, 3, 0, 499, List.replicate 500 ⟨0, some 12, []⟩, "m1"⟩ false).2.2 = .ok ⟨500⟩ ∧
    (timescaleInsertBatch true ⟨[], [], []⟩
      ⟨7, 3, 0, 499, List.replicate 500 ⟨0, some 12, []⟩, "m1"⟩ false).2.2 = .ok ⟨500⟩ ∧
    (questdbInsertBatch true ⟨[], [], []⟩
      ⟨7, 3, 0, 499, List.replicate 500 ⟨0, some 12, []⟩, "m1"⟩ none).2.2 = .ok ⟨500⟩ ∧
    (influxInsertBatch true "dataset" []
      ⟨7, 3, 0, 499, List.replicate 500 ⟨0, some 12, []⟩, "m1"⟩ none).2.2 = .ok ⟨500⟩ :=
  insert_row_count _ 500
    (by
      show (List.replicate 500 (⟨0, some 12, []⟩ : InsertRow)).length = 500
      rw [List.length_replicate])
    ⟨1, rfl⟩ _ _ _ _ _ _

/-! ### C10 - empty batch is a no-op returning row_count 0 -/

/-- C10: for every connected backend adapter, insert_batch on a batch with
an empty rows sequence returns row_count = 0, performs no commit unit and
leaves the backend state unchanged, whatever the failure oracle says. -/
theorem insert_empty_noop (batch : InsertBatch) (h : batch.rows = [])
    (wdb : WideDB) (ndb : NarrowDB) (tdb : TsDB) (qdb : QuestDB) (idb : InfluxDB)
    (m : String) (failW failQ failI : Option Nat) (failN failT : Bool) :
    mssqlWideInsertBatch true wdb batch failW = (wdb, 0, .ok ⟨0⟩) ∧
    mssqlNarrowInsertBatch true ndb batch failN = (ndb, 0, .ok ⟨0⟩) ∧
    timescaleInsertBatch true tdb batch failT = (tdb, 0, .ok ⟨0⟩) ∧
    questdbInsertBatch true qdb batch failQ = (qdb, 0, .ok ⟨0⟩) ∧
    influxInsertBatch true m idb batch failI = (idb, 0, .ok ⟨0⟩) := by
  refine ⟨?_, ?_, ?_, ?_, ?_⟩
  · simp [mssqlWideInsertBatch, h]
  · simp [mssqlNarrowInsertBatch, h]
  · simp [timescaleInsertBatch, h]
  · simp [questdbInsertBatch, h, chunksOf500, chunkCommitLoop]
  · simp [influxInsertBatch, h]

/-- C10 witness: the empty batch on concrete states, with failure oracles
armed, still returns row_count 0 and changes nothing. -/
theorem insert_empty_noop_witness :
    mssqlWideInsertBatch true ⟨[], [], []⟩ ⟨1, 2, 0, 0, [], "m2"⟩ (some 0) =
      (⟨[], [], []⟩, 0, .ok ⟨0⟩) ∧
    mssqlNarrowInsertBatch true ⟨[], [], [], []⟩ ⟨1, 2, 0, 0, [], "m2"⟩ true =
      (⟨[], [], [], []⟩, 0, .ok ⟨0⟩) ∧
    timescaleInsertBatch true ⟨[], [], []⟩ ⟨1, 2, 0, 0, [], "m2"⟩ true =
      (⟨[], [], []⟩, 0, .ok ⟨0⟩) ∧
    questdbInsertBatch true ⟨[], [], []⟩ ⟨1, 2, 0, 0, [], "m2"⟩ (some 0) =
      (⟨[], [], []⟩, 0, .ok ⟨0⟩) ∧
    influxInsertBatch true "dataset" [] ⟨1, 2, 0, 0, [], "m2"⟩ (some 0) =
      ([], 0, .ok ⟨0⟩) :=
  insert_empty_noop _ rfl _ _ _ _ _ _ _ _ _ _ _

theorem chunkCommitLoop_fst_sublist (f : Option Nat) (k : Nat) (cs : List (List α)) :
    ((chunkCommitLoop f k cs).1).Sublist cs.flatten := by
  induction cs generalizing k with
  | nil => simp [chunkCommitLoop]
  | cons c cs ih =>
    rw [chunkCommitLoop]
    by_cases h : f = some k
    · simp [h]
    · simp only [if_neg h, List.flatten_cons]
      exact (ih (k + 1)).append_left c

/-! ### C2 - which adapters write batch.marker onto persisted rows -/

/-- C2 (amended): the relational adapters (mssql_wide via the note column,
mssql_narrow via the dataset note column, timescaledb via the string column)
write batch.marker onto every row they persist, whatever the failure oracle
does; the line-protocol adapters (questdb, influxdb) do not include the
marker in the lines they write, so their payloads and persisted state are
unchanged when only the marker differs. -/
theorem insert_marker_tagging (batch : InsertBatch) (m : String)
    (wdb : WideDB) (ndb : NarrowDB) (tdb : TsDB) (qdb : QuestDB) (idb : InfluxDB)
    (meas : String) (failW failQ failI : Option Nat) (failN failT : Bool) :
    (((mssqlWideInsertBatch true wdb batch failW).1.dataset.drop
        wdb.dataset.length).all (fun d => d.note == batch.marker) = true) ∧
    (((mssqlNarrowInsertBatch true ndb batch failN).1.dataset.drop
        ndb.dataset.length).all (fun d => d.note == batch.marker) = true) ∧
    (((timescaleInsertBatch true tdb batch failT).1.dataset.drop
        tdb.dataset.length).all (fun d => d.string == batch.marker) = true) ∧
    (questIlpLines "dataset" { batch with marker := m } =
      questIlpLines "dataset" batch) ∧
    (questdbInsertBatch true qdb { batch with marker := m } failQ =
      questdbInsertBatch true qdb batch failQ) ∧
    (influxLines meas { batch with marker := m } = influxLines meas batch) ∧
    (influxInsertBatch true meas idb { batch with marker := m } failI =
      influxInsertBatch true meas idb batch failI) := by
  refine ⟨?_, ?_, ?_, rfl, rfl, rfl, rfl⟩
  · by_cases h : batch.rows.isEmpty
    · rw [List.isEmpty_iff] at h
      simp [mssqlWideInsertBatch, h]
    · have hsub := chunkCommitLoop_fst_sublist failW 0
        (chunksOf500 (batch.rows.map (wideParamOfRow batch.job_id batch.marker)))
      rw [chunksOf500_flatten] at hsub
      rw [mssqlWideInsertBatch]
      simp only [Bool.not_true, Bool.false_eq_true, if_false, h, if_neg]
      rcases hout : (chunkCommitLoop failW 0
          (chunksOf500 (batch.rows.map (wideParamOfRow batch.job_id batch.marker)))).2.2 with
        _ | e <;>
      · simp only [hout, List.drop_left, List.all_eq_true]
        intro d hd
        have hdm := hsub.subset hd
        obtain ⟨r, _, rfl⟩ := List.mem_map.mp hdm
        simp [wideParamOfRow]
  · by_cases h : batch.rows.isEmpty
    · rw [List.isEmpty_iff] at h
      simp [mssqlNarrowInsertBatch, h]
    · cases failN with
      | true => simp [mssqlNarrowInsertBatch, h]
      | false =>
        simp only [mssqlNarrowInsertBatch, Bool.not_true, Bool.false_eq_true, if_false, h,
          if_neg, List.drop_left, List.all_eq_true, if_true]
        intro d hd
        obtain ⟨p, _, rfl⟩ := List.mem_map.mp hd
        simp
  · by_cases h : batch.rows.isEmpty
    · rw [List.isEmpty_iff] at h
      simp [timescaleInsertBatch, h]
    · cases failT with
      | true => simp [timescaleInsertBatch, h]
      | false =>
        simp only [timescaleInsertBatch, Bool.not_true, Bool.false_eq_true, if_false, h,
          if_neg, List.drop_left, List.all_eq_true, if_true]
        intro d hd
        obtain ⟨p, _, rfl⟩ := List.mem_map.mp hd
        simp

/-- C2 counterexample: two concrete one-row batches that differ only in
their marker produce identical line-protocol payloads and identical
persisted state on questdb and influxdb, so the persisted rows of those
adapters do not carry the batch marker. -/
theorem ilp_marker_not_persisted_cex :
    (⟨7, 3, 0, 0, [⟨0, some 5, []⟩], "MARKER-A"⟩ : InsertBatch).marker ≠
      (⟨7, 3, 0, 0, [⟨0, some 5, []⟩], "MARKER-B"⟩ : InsertBatch).marker ∧
    questIlpLines "dataset" ⟨7, 3, 0, 0, [⟨0, some 5, []⟩], "MARKER-A"⟩ =
      questIlpLines "dataset" ⟨7, 3, 0, 0, [⟨0, some 5, []⟩], "MARKER-B"⟩ ∧
    questdbInsertBatch true ⟨[], [], []⟩ ⟨7, 3, 0, 0, [⟨0, some 5, []⟩], "MARKER-A"⟩ none =
      questdbInsertBatch true ⟨[], [], []⟩ ⟨7, 3, 0, 0, [⟨0, some 5, []⟩], "MARKER-B"⟩ none ∧
    influxLines "dataset" ⟨7, 3, 0, 0, [⟨0, some 5, []⟩], "MARKER-A"⟩ =
      influxLines "dataset" ⟨7, 3, 0, 0, [⟨0, some 5, []⟩], "MARKER-B"⟩ ∧
    influxInsertBatch true "dataset" [] ⟨7, 3, 0, 0, [⟨0, some 5, []⟩], "MARKER-A"⟩ none =
      influxInsertBatch true "dataset" [] ⟨7, 3, 0, 0, [⟨0, some 5, []⟩], "MARKER-B"⟩ none :=
  ⟨by decide, rfl, rfl, rfl, rfl⟩

/-! ### C1 - chunking and per-chunk durability of insert_batch -/

/-- C1 (amended): for a non-empty batch, mssql_wide, questdb and influxdb
split the rows into BATCH_SIZE (500) chunks and write each chunk as its own
unit of work ((N + 499) / 500 units for N rows), and a failure while writing
chunk j leaves exactly the previously completed chunks 0..j-1 durable when
the error propagates; mssql_narrow and timescaledb instead write the whole
batch as one transaction with a single commit, and a failure leaves none of
the batch's rows committed. -/
theorem insert_chunking_per_backend (batch : InsertBatch) (j : Nat)
    (hne : batch.rows ≠ []) (hj : j < (batch.rows.length + 499) / 500)
    (wdb : WideDB) (ndb : NarrowDB) (tdb : TsDB) (qdb : QuestDB) (idb : InfluxDB)
    (m : String) :
    mssqlWideInsertBatch true wdb batch none =
      ({ wdb with dataset := wdb.dataset ++
          batch.rows.map (wideParamOfRow batch.job_id batch.marker) },
       ((batch.rows.length + 499) / 500, .ok ⟨batch.rows.length⟩)) ∧
    mssqlWideInsertBatch true wdb batch (some j) =
      ({ wdb with dataset := wdb.dataset ++
          ((chunksOf500 (batch.rows.map
            (wideParamOfRow batch.job_id batch.marker))).take j).flatten },
       (j, .error .backend)) ∧
    questdbInsertBatch true qdb batch none =
      ({ qdb with dataset := qdb.dataset ++ batch.rows.map (fun r =>
          ⟨batch.job_id, r.tel_speed, r.timestamp * 1000000000⟩) },
       ((batch.rows.length + 499) / 500, .ok ⟨batch.rows.length⟩)) ∧
    questdbInsertBatch true qdb batch (some j) =
      ({ qdb with dataset := qdb.dataset ++
          ((chunksOf500 (batch.rows.map (fun r =>
            (⟨batch.job_id, r.tel_speed, r.timestamp * 1000000000⟩ :
              QuestDatasetRow)))).take j).flatten },
       (j, .error .backend)) ∧
    influxInsertBatch true m idb batch none =
      (idb ++ batch.rows.map (fun r =>
          ⟨m, batch.job_id, batch.vehicle_id, r.tel_speed, r.timestamp * 1000000000⟩),
       ((batch.rows.length + 499) / 500, .ok ⟨batch.rows.length⟩)) ∧
    influxInsertBatch true m idb batch (some j) =
      (idb ++ ((chunksOf500 (batch.rows.map (fun r =>
          (⟨m, batch.job_id, batch.vehicle_id, r.tel_speed, r.timestamp * 1000000000⟩ :
            InfluxPoint)))).take j).flatten,
       (j, .error .backend)) ∧
    (mssqlNarrowInsertBatch true ndb batch false).2.1 = 1 ∧
    mssqlNarrowInsertBatch true ndb batch true = (ndb, 0, .error .backend) ∧
    (timescaleInsertBatch true tdb batch false).2.1 = 1 ∧
    timescaleInsertBatch true tdb batch true = (tdb, 0, .error .backend) := by
  have hemp : batch.rows.isEmpty = false := by
    simpa [List.isEmpty_iff] using hne
  have hjW : j < (chunksOf500 (batch.rows.map
      (wideParamOfRow batch.job_id batch.marker))).length := by
    rw [chunksOf500_length, List.length_map]; exact hj
  have hjQ : j < (chunksOf500 (batch.rows.map (fun r =>
      (⟨batch.job_id, r.tel_speed, r.timestamp * 1000000000⟩ :
        QuestDatasetRow)))).length := by
    rw [chunksOf500_length, List.length_map]; exact hj
  have hjI : j < (chunksOf500 (batch.rows.map (fun r =>
      (⟨m, batch.job_id, batch.vehicle_id, r.tel_speed, r.timestamp * 1000000000⟩ :
        InfluxPoint)))).length := by
    rw [chunksOf500_length, List.length_map]; exact hj
  have hfail := fun (α : Type) (cs : List (List α)) (hc : j < cs.length) =>
    (by simpa using chunkCommitLoop_fail cs 0 j hc :
      chunkCommitLoop (some j) 0 cs = ((cs.take j).flatten, (j, some .backend)))
  refine ⟨?_, ?_, ?_, ?_, ?_, ?_, ?_, ?_, ?_, ?_⟩
  · simp [mssqlWideInsertBatch, hemp, chunkCommitLoop_none, chunksOf500_flatten,
      chunksOf500_length]
  · simp [mssqlWideInsertBatch, hemp, hfail _ _ hjW]
  · simp [questdbInsertBatch, chunkCommitLoop_none, chunksOf500_flatten,
      chunksOf500_length]
  · simp [questdbInsertBatch, hfail _ _ hjQ]
  · simp [influxInsertBatch, hemp, chunkCommitLoop_none, chunksOf500_flatten,
      chunksOf500_length]
  · simp [influxInsertBatch, hemp, hfail _ _ hjI]
  · simp [mssqlNarrowInsertBatch, hemp]
  · simp [mssqlNarrowInsertBatch, hemp]
  · simp [timescaleInsertBatch, hemp]
  · simp [timescaleInsertBatch, hemp]

/-- C1 witness: a 501-row batch has two chunks; injecting a failure on chunk
index 1 leaves exactly chunk 0 durable on the chunking backends, and the
single-transaction backends commit once on success and keep nothing on
failure. -/
theorem insert_chunking_witness :
    mssqlWideInsertBatch true ⟨[], [], []⟩
      ⟨7, 3, 0, 500, List.replicate 501 ⟨0, some 2, []⟩, "M1"⟩ (some 1) =
      (⟨[] ++ ((chunksOf500 ((List.replicate 501 (⟨0, some 2, []⟩ : InsertRow)).map
          (wideParamOfRow 7 "M1"))).take 1).flatten, [], []⟩,
       (1, .error .backend)) ∧
    (mssqlNarrowInsertBatch true ⟨[], [], [], []⟩
      ⟨7, 3, 0, 500, List.replicate 501 ⟨0, some 2, []⟩, "M1"⟩ false).2.1 = 1 ∧
    mssqlNarrowInsertBatch true ⟨[], [], [], []⟩
      ⟨7, 3, 0, 500, List.replicate 501 ⟨0, some 2, []⟩, "M1"⟩ true =
      (⟨[], [], [], []⟩, 0, .error .backend) := by
  have h := insert_chunking_per_backend
    ⟨7, 3, 0, 500, List.replicate 501 ⟨0, some 2, []⟩, "M1"⟩ 1
    (List.ne_nil_of_length_pos (by rw [List.length_replicate]; norm_num))
    (by rw [List.length_replicate]; norm_num)
    ⟨[], [], []⟩ ⟨[], [], [], []⟩ ⟨[], [], []⟩ ⟨[], [], []⟩ [] "d"
  exact ⟨h.2.1, h.2.2.2.2.2.2.1, h.2.2.2.2.2.2.2.1⟩

/-- C1 counterexample: on a concrete 1000-row batch (two 500-row chunks),
mssql_narrow and timescaledb perform exactly one commit instead of one per
chunk, and an injected failure takes even the first 500 rows down with it,
contradicting the claim that every backend commits each 500-row chunk as its
own unit of work whose effects survive a later failure. -/
theorem narrow_single_commit_cex :
    (chunksOf500 (List.replicate 1000 (⟨0, some 2, []⟩ : InsertRow))).length = 2 ∧
    (mssqlNarrowInsertBatch true ⟨[], [], [], []⟩
      ⟨7, 3, 0, 999, List.replicate 1000 ⟨0, some 2, []⟩, "M0"⟩ false).2.1 = 1 ∧
    mssqlNarrowInsertBatch true ⟨[], [], [], []⟩
      ⟨7, 3, 0, 999, List.replicate 1000 ⟨0, some 2, []⟩, "M0"⟩ true =
      (⟨[], [], [], []⟩, 0, .error .backend) ∧
    (timescaleInsertBatch true ⟨[], [], []⟩
      ⟨7, 3, 0, 999, List.replicate 1000 ⟨0, some 2, []⟩, "M0"⟩ false).2.1 = 1 ∧
    timescaleInsertBatch true ⟨[], [], []⟩
      ⟨7, 3, 0, 999, List.replicate 1000 ⟨0, some 2, []⟩, "M0"⟩ true =
      (⟨[], [], []⟩, 0, .error .backend) := by
  refine ⟨?_, rfl, rfl, rfl, rfl⟩
  rw [chunksOf500_length, List.length_replicate]

/-! ### C3 - clean_data followed by job_full -/

/-- C3 (amended): after clean_data(vehicle_id, job_id), job_full(job_id)
reports zero rows on mssql_wide and timescaledb unconditionally, on
mssql_narrow whenever the job table actually pairs the job with that vehicle
(as create_new_job arranges), and on influxdb whenever every point of the
job carries that vehicle tag (as insert_batch arranges); questdb is excluded
because its clean_data is a disabled no-op. -/
theorem clean_data_then_job_full_zero
    (wdb : WideDB) (tdb : TsDB) (ndb : NarrowDB) (idb : InfluxDB) (meas : String)
    (v j : Nat)
    (hnar : ∃ jr ∈ ndb.job, jr.id = j ∧ jr.vehicle_id = v)
    (hinf : ∀ p ∈ idb, p.job_id = j → p.vehicle_id = v) :
    mssqlWideJobFull true (mssqlWideCleanData true wdb v j).1 j = .ok ⟨0⟩ ∧
    timescaleJobFull true (timescaleCleanData true tdb v j).1 j = .ok ⟨0⟩ ∧
    mssqlNarrowJobFull true (mssqlNarrowCleanData true ndb v j).1 j = .ok ⟨0⟩ ∧
    influxJobFull true meas (influxCleanData true idb v j).1 j = .ok ⟨0⟩ := by
  refine ⟨?_, ?_, ?_, ?_⟩
  · simp only [mssqlWideCleanData, mssqlWideJobFull, Bool.not_true, Bool.false_eq_true,
      if_false]
    simp only [Except.ok.injEq, QueryResult.mk.injEq, List.length_eq_zero,
      List.filter_eq_nil_iff]
    intro d hd
    have hd1 := (List.mem_filter.mp (List.mem_filter.mp hd).1).2
    simp only [bne_iff_ne, ne_eq] at hd1
    simp [hd1]
  · simp only [timescaleCleanData, timescaleJobFull, Bool.not_true, Bool.false_eq_true,
      if_false]
    simp only [Except.ok.injEq, QueryResult.mk.injEq, List.length_eq_zero,
      List.filter_eq_nil_iff]
    intro d hd
    have hd1 := (List.mem_filter.mp hd).2
    simp only [bne_iff_ne, ne_eq] at hd1
    simp [hd1]
  · obtain ⟨jr, hjr, hjid, hjv⟩ := hnar
    simp only [mssqlNarrowCleanData, mssqlNarrowJobFull, Bool.not_true, Bool.false_eq_true,
      if_false]
    simp only [Except.ok.injEq, QueryResult.mk.injEq, List.length_eq_zero,
      List.flatMap_eq_nil_iff]
    intro d hd
    have hd1 := (List.mem_filter.mp hd).2
    by_cases hdj : d.job_id == j
    · exfalso
      rw [Bool.not_eq_true', List.any_eq_false] at hd1
      have hdj2 : d.job_id = j := eq_of_beq hdj
      exact hd1 jr hjr (by simp [hjid, hjv, hdj2])
    · simp [hdj]
  · simp only [influxCleanData, influxJobFull, Bool.not_true, Bool.false_eq_true,
      if_false]
    simp only [Except.ok.injEq, QueryResult.mk.injEq, List.length_eq_zero,
      List.filter_eq_nil_iff]
    intro p hp
    have hp1 := (List.mem_filter.mp hp).2
    intro hcon
    have hpj : p.job_id = j := by
      have := (Bool.and_eq_true _ _).mp hcon
      exact eq_of_beq this.2
    have hpv : p.vehicle_id = v := hinf p (List.mem_filter.mp hp).1 hpj
    simp [hpj, hpv] at hp1

/-- C3 witness: a concrete database per backend where the create/insert
lifecycle invariants hold; clean_data followed by job_full reports zero. -/
theorem clean_data_then_job_full_zero_witness :
    mssqlWideJobFull true
      (mssqlWideCleanData true ⟨[⟨9, 100, 0, "mk", none, none, none, none, none, none,
        none, none, none, none, none, some 3⟩], [⟨9, 4⟩], [⟨4, "veh"⟩]⟩ 4 9).1 9 =
      .ok ⟨0⟩ ∧
    timescaleJobFull true
      (timescaleCleanData true ⟨[⟨100, 4, 9, some 3, "mk"⟩], [⟨9, 4⟩], [⟨4, "veh"⟩]⟩
        4 9).1 9 = .ok ⟨0⟩ ∧
    mssqlNarrowJobFull true
      (mssqlNarrowCleanData true ⟨[⟨1, 9, 100, "mk", 0⟩], [⟨1, some "3", 45, 1⟩],
        [⟨9, 4, "1", "1"⟩], [⟨4, "veh"⟩]⟩ 4 9).1 9 = .ok ⟨0⟩ ∧
    influxJobFull true "dataset"
      (influxCleanData true [⟨"dataset", 9, 4, some 3, 100⟩] 4 9).1 9 = .ok ⟨0⟩ :=
  clean_data_then_job_full_zero
    ⟨[⟨9, 100, 0, "mk", none, none, none, none, none, none, none, none, none, none,
      none, some 3⟩], [⟨9, 4⟩], [⟨4, "veh"⟩]⟩
    ⟨[⟨100, 4, 9, some 3, "mk"⟩], [⟨9, 4⟩], [⟨4, "veh"⟩]⟩
    ⟨[⟨1, 9, 100, "mk", 0⟩], [⟨1, some "3", 45, 1⟩], [⟨9, 4, "1", "1"⟩], [⟨4, "veh"⟩]⟩
    [⟨"dataset", 9, 4, some 3, 100⟩] "dataset" 4 9
    ⟨⟨9, 4, "1", "1"⟩, by decide, rfl, rfl⟩
    (by decide)

/-- C3 counterexample: questdb's clean_data is a disabled no-op, so on a
concrete state holding one row of job 7, clean_data followed by job_full
still reports that row instead of zero. -/
theorem questdb_clean_data_noop_cex :
    questdbCleanData true ⟨[⟨7, some 5, 0⟩], [⟨7, 4⟩], [⟨4, "veh"⟩]⟩ 4 7 =
      (⟨[⟨7, some 5, 0⟩], [⟨7, 4⟩], [⟨4, "veh"⟩]⟩, .ok ()) ∧
    questdbJobFull true
      (questdbCleanData true ⟨[⟨7, some 5, 0⟩], [⟨7, 4⟩], [⟨4, "veh"⟩]⟩ 4 7).1 7 =
      .ok ⟨1⟩ :=
  ⟨rfl, rfl⟩

/-! ### C4 - precondition checks before connect -/

/-- C4 (amended): invoked on a disconnected adapter, every contract
operation other than connect/close raises the precondition failure without
touching backend state - except questdb.insert_batch (no check at all, it
writes over plain HTTP), questdb.clean_data (a bare return, neither check
nor failure), and influxdb.create_new_vehicle / create_new_job (plain uuid
generation with no check). -/
theorem precondition_checks (wdb : WideDB) (ndb : NarrowDB) (tdb : TsDB)
    (qdb : QuestDB) (idb : InfluxDB) (batch : InsertBatch) (meas vname : String)
    (v j n s t fid : Nat) (vids : List Nat) (fo : Option Nat) (fb : Bool) :
    mssqlWideJobFull false wdb j = .error .precondition ∧
    mssqlWideLastN false wdb v n = .error .precondition ∧
    mssqlWideDashboard10m false wdb v s t = .error .precondition ∧
    mssqlWideDashboard10mMulti false wdb vids s t = .error .precondition ∧
    mssqlWideInsertBatch false wdb batch fo = (wdb, 0, .error .precondition) ∧
    mssqlWideCreateNewVehicle false wdb fid vname = (wdb, .error .precondition) ∧
    mssqlWideCreateNewJob false wdb fid v = (wdb, .error .precondition) ∧
    mssqlWideCleanData false wdb v j = (wdb, .error .precondition) ∧
    mssqlNarrowJobFull false ndb j = .error .precondition ∧
    mssqlNarrowLastN false ndb v n = .error .precondition ∧
    mssqlNarrowDashboard10m false ndb v s t = .error .precondition ∧
    mssqlNarrowDashboard10mMulti false ndb vids s t = .error .precondition ∧
    mssqlNarrowInsertBatch false ndb batch fb = (ndb, 0, .error .precondition) ∧
    mssqlNarrowCreateNewVehicle false ndb = (ndb, .error .precondition) ∧
    mssqlNarrowCreateNewJob false ndb v = (ndb, .error .precondition) ∧
    mssqlNarrowCleanData false ndb v j = (ndb, .error .precondition) ∧
    timescaleJobFull false tdb j = .error .precondition ∧
    timescaleLastN false tdb v n = .error .precondition ∧
    timescaleDashboard10m false tdb v s t = .error .precondition ∧
    timescaleDashboard10mMulti false tdb vids s t = .error .precondition ∧
    timescaleInsertBatch false tdb batch fb = (tdb, 0, .error .precondition) ∧
    timescaleCreateNewVehicle false tdb fid vname = (tdb, .error .precondition) ∧
    timescaleCreateNewJob false tdb fid v = (tdb, .error .precondition) ∧
    timescaleCleanData false tdb v j = (tdb, .error .precondition) ∧
    questdbJobFull false qdb j = .error .precondition ∧
    questdbLastN false qdb v n = .error .precondition ∧
    questdbDashboard10m false qdb v s t = .error .precondition ∧
    questdbDashboard10mMulti false qdb vids s t = .error .precondition ∧
    questdbCreateNewVehicle false qdb fid = (qdb, .error .precondition) ∧
    questdbCreateNewJob false qdb v fid = (qdb, .error .precondition) ∧
    influxJobFull false meas idb j = .error .precondition ∧
    influxLastN false meas idb v n = .error .precondition ∧
    influxDashboard10m false meas idb v s t = .error .precondition ∧
    influxDashboard10mMulti false meas idb vids s t = .error .precondition ∧
    influxInsertBatch false meas idb batch fo = (idb, 0, .error .precondition) ∧
    influxCleanData false idb v j = (idb, .error .precondition) :=
  ⟨rfl, rfl, rfl, rfl, rfl, rfl, rfl, rfl, rfl, rfl, rfl, rfl, rfl, rfl, rfl, rfl,
   rfl, rfl, rfl, rfl, rfl, rfl, rfl, rfl, rfl, rfl, rfl, rfl, rfl, rfl, rfl, rfl,
   rfl, rfl, rfl, rfl⟩

/-- C4 counterexample: on a disconnected adapter, influxdb's
create_new_vehicle and create_new_job return fresh ids without raising,
questdb's clean_data silently succeeds, and questdb's insert_batch even
performs its backend write (one HTTP post persisting the row). -/
theorem missing_precondition_checks_cex :
    influxCreateNewVehicle false 7 = .ok 7 ∧
    influxCreateNewJob false 4 8 = .ok 8 ∧
    questdbCleanData false ⟨[⟨7, some 5, 0⟩], [], []⟩ 4 7 =
      (⟨[⟨7, some 5, 0⟩], [], []⟩, .ok ()) ∧
    questdbInsertBatch false ⟨[], [], []⟩ ⟨7, 3, 0, 0, [⟨0, some 5, []⟩], "M"⟩ none =
      (⟨[⟨7, some 5, 0⟩], [], []⟩, 1, .ok ⟨1⟩) := by
  refine ⟨rfl, rfl, rfl, ?_⟩
  simp [questdbInsertBatch, chunksOf500, chunkCommitLoop, BATCH_SIZE]

/-! ### C8 - connect/close idempotency -/

/-- C8: for every backend adapter, connect on an already-connected adapter
is a no-op preserving the existing session, repeated connect and repeated
close are idempotent, close on a never-connected adapter is a no-op, and
after close the adapter is disconnected. -/
theorem connect_close_idempotent (c : Option Nat) (h f1 f2 : Nat) (ic : InfluxConn) :
    mssqlWideConnect (some h) f1 = some h ∧
    mssqlWideConnect (mssqlWideConnect c f1) f2 = mssqlWideConnect c f1 ∧
    mssqlWideClose (mssqlWideClose c) = mssqlWideClose c ∧
    mssqlWideClose none = none ∧
    mssqlWideClose c = none ∧
    mssqlNarrowConnect (some h) f1 = some h ∧
    mssqlNarrowConnect (mssqlNarrowConnect c f1) f2 = mssqlNarrowConnect c f1 ∧
    mssqlNarrowClose (mssqlNarrowClose c) = mssqlNarrowClose c ∧
    mssqlNarrowClose none = none ∧
    mssqlNarrowClose c = none ∧
    timescaleConnect (some h) f1 = some h ∧
    timescaleConnect (timescaleConnect c f1) f2 = timescaleConnect c f1 ∧
    timescaleClose (timescaleClose c) = timescaleClose c ∧
    timescaleClose none = none ∧
    timescaleClose c = none ∧
    questdbConnect (some h) f1 = some h ∧
    questdbConnect (questdbConnect c f1) f2 = questdbConnect c f1 ∧
    questdbClose (questdbClose c) = questdbClose c ∧
    questdbClose none = none ∧
    questdbClose c = none ∧
    influxConnect ⟨some h, ic.query_api, ic.write_api⟩ f1 =
      ⟨some h, ic.query_api, ic.write_api⟩ ∧
    influxConnect (influxConnect ic f1) f2 = influxConnect ic f1 ∧
    influxClose (influxClose ic) = influxClose ic ∧
    influxClose ⟨some h, ic.query_api, ic.write_api⟩ = ⟨none, none, none⟩ ∧
    influxClose ⟨none, ic.query_api, ic.write_api⟩ = ⟨none, ic.query_api, ic.write_api⟩ ∧
    (influxClose ic).client = none := by
  obtain ⟨cl, q, w⟩ := ic
  cases c <;> cases cl <;>
    simp [mssqlWideConnect, mssqlWideClose, mssqlNarrowConnect, mssqlNarrowClose,
      timescaleConnect, timescaleClose, questdbConnect, questdbClose,
      influxConnect, influxClose]

/-! ### Harness loop lemmas -/

theorem warmupLoop_eq_none (iters : Nat → Except DBError BenchmarkRun) (i k : Nat)
    (h : ∀ t, i ≤ t → t < i + k → ∃ r, iters t = .ok r) :
    warmupLoop iters i k = none := by
  induction k generalizing i with
  | zero => rfl
  | succ k ih =>
    obtain ⟨r, hr⟩ := h i (Nat.le_refl i) (by omega)
    simp only [warmupLoop, hr]
    exact ih (i + 1) (fun t ht1 ht2 => h t (by omega) (by omega))

theorem measuredLoop_ok (iters : Nat → Except DBError BenchmarkRun)
    (g : Nat → BenchmarkRun) (base : Nat)
    (h : ∀ t, iters (base + t) = .ok (g t)) (i k : Nat) :
    measuredLoop iters base i k =
      ((List.range' i k).map (fun t => (t + 1, g t)), none) := by
  induction k generalizing i with
  | zero => rfl
  | succ k ih =>
    simp only [measuredLoop, h i, ih (i + 1)]
    rw [List.range'_succ, List.map_cons]

theorem measuredLoop_abort (iters : Nat → Except DBError BenchmarkRun)
    (g : Nat → BenchmarkRun) (e : DBError) (base k : Nat) :
    ∀ i rem, i ≤ k → k < i + rem →
    (∀ t, i ≤ t → t < k → iters (base + t) = .ok (g t)) →
    iters (base + k) = .error e →
    measuredLoop iters base i rem =
      ((List.range' i (k - i)).map (fun t => (t + 1, g t)), some e) := by
  intro i rem
  induction rem generalizing i with
  | zero => intro hik hk _ _; omega
  | succ rem ih =>
    intro hik hk hok herr
    by_cases hi : i = k
    · subst hi
      simp [measuredLoop, herr]
    · have hlt : i < k := by omega
      simp only [measuredLoop, hok i (Nat.le_refl i) hlt,
        ih (i + 1) (by omega) (by omega) (fun t h1 h2 => hok t (by omega) h2) herr]
      have hki : k - i = (k - (i + 1)) + 1 := by omega
      rw [hki, List.range'_succ, List.map_cons]

/-! ### C6 - warmups discarded, measured run_idx contiguous -/

/-- C6: when every iteration succeeds, the rows appended to the result sink
are exactly the measured iterations - the warmup executions (iteration
indices below warmup.toNat) are discarded - and their run_idx values are the
contiguous 1-based sequence 1..runs in order. -/
theorem harness_run_idx_contiguous (warmup runs : Int) (g : Nat → BenchmarkRun) :
    (harnessMain warmup runs (fun i => .ok (g i))).sink =
      (List.range runs.toNat).map (fun i => (i + 1, g (warmup.toNat + i))) ∧
    (harnessMain warmup runs (fun i => .ok (g i))).sink.map Prod.fst =
      (List.range runs.toNat).map (fun i => i + 1) := by
  have hw : warmupLoop (fun i => .ok (g i)) 0 warmup.toNat = none :=
    warmupLoop_eq_none _ 0 _ (fun t _ _ => ⟨g t, rfl⟩)
  have hm := measuredLoop_ok (fun i => .ok (g i)) (fun t => g (warmup.toNat + t))
    warmup.toNat (fun t => rfl) 0 runs.toNat
  have h1 : (harnessMain warmup runs (fun i => .ok (g i))).sink =
      (List.range runs.toNat).map (fun i => (i + 1, g (warmup.toNat + i))) := by
    simp only [harnessMain, hw, hm, List.range_eq_range']
  refine ⟨h1, ?_⟩
  rw [h1, List.map_map]
  rfl

/-! ### C7 - close always runs, a failing iteration aborts the rest -/

/-- C7: after the connected state is reached, close() runs on every path;
and when measured iteration k raises (warmups and the k earlier measured
iterations succeeding), the harness appends exactly the k earlier rows,
appends nothing for the failed iteration, runs no further iteration, and
still closes the adapter. -/
theorem harness_close_and_abort (warmup runs : Int)
    (iters : Nat → Except DBError BenchmarkRun)
    (w n k : Nat) (g : Nat → BenchmarkRun) (e : DBError) (hk : k < n) :
    (harnessMain warmup runs iters).closed = true ∧
    harnessMain (w : Int) (n : Int) (fun i => if i < w + k then .ok (g i) else .error e) =
      { sink := (List.range k).map (fun t => (t + 1, g (w + t))),
        closed := true, error := some e } := by
  constructor
  · rw [harnessMain]
    rcases hwl : warmupLoop iters 0 warmup.toNat with _ | e2 <;> simp [hwl]
  · have htw : ((w : Int)).toNat = w := Int.toNat_natCast w
    have htn : ((n : Int)).toNat = n := Int.toNat_natCast n
    have hwl : warmupLoop (fun i => if i < w + k then .ok (g i) else .error e) 0 w =
        none :=
      warmupLoop_eq_none _ 0 w
        (fun t h1 h2 => ⟨g t, by rw [if_pos (by omega)]⟩)
    have hml := measuredLoop_abort
      (fun i => if i < w + k then .ok (g i) else .error e)
      (fun t => g (w + t)) e w k 0 n (by omega) (by omega)
      (fun t h1 h2 => by dsimp only; rw [if_pos (by omega)])
      (by dsimp only; rw [if_neg (by omega)])
    simp only [harnessMain, htw, htn, hwl, hml, Nat.sub_zero, List.range_eq_range']

/-- C7 witness: with one warmup, three measured runs and a failure injected
on measured iteration index 1, the sink holds exactly run_idx 1, close still
runs, and the error surfaces. -/
theorem harness_close_and_abort_witness :
    (harnessMain 1 3 (fun i => .ok ⟨"job_full", "db", [], 0, i⟩)).closed = true ∧
    harnessMain ((1 : Nat) : Int) ((3 : Nat) : Int)
      (fun i => if i < 1 + 1 then .ok (⟨"job_full", "db", [], 0, i⟩ : BenchmarkRun)
                else .error .backend) =
      { sink := (List.range 1).map
          (fun t => (t + 1, (⟨"job_full", "db", [], 0, 1 + t⟩ : BenchmarkRun))),
        closed := true, error := some .backend } :=
  harness_close_and_abort 1 3 (fun i => .ok ⟨"job_full", "db", [], 0, i⟩)
    1 3 1 (fun i => ⟨"job_full", "db", [], 0, i⟩) .backend (by omega)

/-! ### C9 - wrapper result labelling -/

/-- C9 (code bug): run_last_n_by_vehicle performs its one timed call but
labels the returned BenchmarkRun with benchmark "job_full" instead of its
own logical name "last_n_by_vehicle"; evaluated here on a concrete adapter
call reporting 5 rows. -/
theorem run_last_n_benchmark_label :
    ((run_last_n_by_vehicle (fun s : Unit => (s, .ok ⟨5⟩)) "mssql_wide" 1 5 () 0 0).2.toOption.map
      (fun r => r.benchmark)) = some "job_full" ∧
    "job_full" ≠ "last_n_by_vehicle" ∧
    ((run_last_n_by_vehicle (fun s : Unit => (s, .ok ⟨5⟩)) "mssql_wide" 1 5 () 0 0).2.toOption.map
      (fun r => (r.row_count, r.params))) =
      some (5, [("vehicle_id", .int 1), ("n", .int 5)]) :=
  ⟨rfl, by decide, rfl⟩

end Bench
